import Mathlib

/-!
Verification of the bounded, persistent, fail-soft state subsystem of
`compass-handler.py`: the usage ledger (`update_session_token_count`,
`get_current_session_tokens`, `validate_and_clean_token_data`,
`cleanup_token_file`, `perform_emergency_token_cleanup`), the knowledge
query cache (`get_cache_key`, `load_cached_knowledge`,
`save_knowledge_cache`, `execute_knowledge_query_subprocess`) and the
activity sensor (`compass_context_active`, `check_compass_session_active`,
`check_recent_compass_tokens`).

The embedding is shallow: JSON values parsed from disk are modelled by a
two-level value type (`JScalar`, `JVal`, `JTop`; the handler only ever
inspects persisted objects two levels deep), Python dicts are association
lists preserving insertion order, timestamps are natural-number epoch
seconds whose ISO rendering is `toString`, and a file on disk is its parse
result (`none` for unparseable bytes) together with its byte size.
Exceptions escaping a Python function are modelled with `Except String`,
the error string naming the Python exception class.
-/

namespace Compass

/-! ## Constants from the source -/

def MAX_TOKEN_SESSIONS : Nat := 25

def MAX_TOKEN_FILE_SIZE : Nat := 256 * 1024

def MAX_AGENT_TRACKING : Nat := 50

def MAX_PHASE_TRACKING : Nat := 8

def KNOWLEDGE_CACHE_TTL : Nat := 3600

def SUBPROCESS_TIMEOUT : Nat := 300

/-! ## JSON value model (two levels, as deep as the handler ever looks) -/

inductive JScalar where
  | jint (n : Int)
  | jstr (s : String)
  | jbool (b : Bool)
  | jnull
deriving DecidableEq, Repr

inductive JVal where
  | scalar (a : JScalar)
  | obj (entries : List (String × JScalar))
deriving DecidableEq, Repr

inductive JTop where
  | scalar (a : JScalar)
  | obj (entries : List (String × JVal))
deriving DecidableEq, Repr

/-- A file on disk: missing, or present with a parse result (`none` models
bytes that fail JSON parsing) and an on-disk byte size. -/
inductive FileC where
  | missing
  | file (parse : Option JTop) (size : Nat)
deriving DecidableEq, Repr

def fileSize : FileC → Nat
  | .missing => 0
  | .file _ s => s

/-! ## Python dict operations on association lists (insertion order kept) -/

def dlookup {α : Type} : List (String × α) → String → Option α
  | [], _ => none
  | (k', v) :: rest, k => if k' = k then some v else dlookup rest k

def dlookupD {α : Type} (d : List (String × α)) (k : String) (dv : α) : α :=
  (dlookup d k).getD dv

/-- `d[k] = v`: replace in place (keeping position) or append, as a Python
dict does. -/
def dinsert {α : Type} : List (String × α) → String → α → List (String × α)
  | [], k, v => [(k, v)]
  | (k', v') :: rest, k, v =>
      if k' = k then (k, v) :: rest else (k', v') :: dinsert rest k v

def derase {α : Type} (d : List (String × α)) (k : String) : List (String × α) :=
  d.filter (fun p => p.1 != k)

/-! ## Timestamps -/

/-- ISO rendering of a model timestamp (`datetime.now().isoformat()`). -/
def tstr (t : Nat) : String := toString t

def charDigit (c : Char) : Option Nat :=
  if c.toNat < 48 then none
  else if 57 < c.toNat then none
  else some (c.toNat - 48)

def digitsValGo : List Char → Nat → Option Nat
  | [], acc => some acc
  | c :: rest, acc =>
      match charDigit c with
      | some d => digitsValGo rest (acc * 10 + d)
      | none => none

/-- `datetime.fromisoformat` on a model timestamp string; `none` models the
exception path for a string that is not a timestamp. -/
def parseTs (s : String) : Option Nat :=
  match s.data with
  | [] => none
  | cs => digitsValGo cs 0

/-- `int(s)` on a string: an optional sign followed by digits. -/
def pyParseInt (s : String) : Option Int :=
  match s.data with
  | [] => none
  | '-' :: rest =>
      match rest with
      | [] => none
      | cs => (digitsValGo cs 0).map (fun n => -(n : Int))
  | '+' :: rest =>
      match rest with
      | [] => none
      | cs => (digitsValGo cs 0).map (fun n => (n : Int))
  | cs => (digitsValGo cs 0).map (fun n => (n : Int))

/-! ## Serialized size (length of `json.dumps` with compact separators) -/

def jsonSizeScalar : JScalar → Nat
  | .jint n => (toString n).length
  | .jstr s => s.length + 2
  | .jbool b => if b then 4 else 5
  | .jnull => 4

def jsonSizeObjS (l : List (String × JScalar)) : Nat :=
  2 + (l.map (fun p => p.1.length + 3 + jsonSizeScalar p.2)).sum + (l.length - 1)

def jsonSizeJVal : JVal → Nat
  | .scalar s => jsonSizeScalar s
  | .obj l => jsonSizeObjS l

def jsonSizeTop : JTop → Nat
  | .scalar s => jsonSizeScalar s
  | .obj l => 2 + (l.map (fun p => p.1.length + 3 + jsonSizeJVal p.2)).sum + (l.length - 1)

/-! ## Serialized size of `json.dumps` with DEFAULT separators

`load_json_memory_safe` measures `len(json.dumps(data))`, and that call
uses the default `", "` and `": "` separators — one byte wider per colon
and per comma than the compact form the ledger writes with. -/

def jsonDumpsSizeObjS (l : List (String × JScalar)) : Nat :=
  2 + (l.map (fun p => p.1.length + 4 + jsonSizeScalar p.2)).sum + 2 * (l.length - 1)

def jsonDumpsSizeJVal : JVal → Nat
  | .scalar s => jsonSizeScalar s
  | .obj l => jsonDumpsSizeObjS l

def jsonDumpsSizeTop : JTop → Nat
  | .scalar s => jsonSizeScalar s
  | .obj l =>
      2 + (l.map (fun p => p.1.length + 4 + jsonDumpsSizeJVal p.2)).sum
        + 2 * (l.length - 1)

/-! ## Python `int(...)` coercion -/

/-- `int(v)` on a parsed JSON value: succeeds on ints and bools, parses
integer strings, raises `ValueError` on other strings and `TypeError` on
`None` and dicts. -/
def pyIntOf : JVal → Except String Int
  | .scalar (.jint n) => .ok n
  | .scalar (.jbool b) => .ok (if b then 1 else 0)
  | .scalar (.jstr s) =>
      match pyParseInt s with
      | some n => .ok n
      | none => .error "ValueError"
  | .scalar .jnull => .error "TypeError"
  | .obj _ => .error "TypeError"

/-! ## Token data structure (`create_empty_token_data` shape) -/

/-- The well-typed shape every value written to the token file has:
`validate_and_clean_token_data` and `create_empty_token_data` only ever
produce this shape. `session_start` is carried through untouched from the
loaded file, so it stays an arbitrary `JVal`. -/
structure TokenData where
  total : Int
  by_agent : List (String × Int)
  by_phase : List (String × Int)
  session_start : JVal
  last_update : String
deriving DecidableEq, Repr

def create_empty_token_data (now : Nat) : TokenData :=
  { total := 0, by_agent := [], by_phase := [],
    session_start := .scalar (.jstr (tstr now)), last_update := tstr now }

/-- Serialization of the in-memory token data, with the field order of the
`create_empty_token_data` dict literal (mutations in
`update_session_token_count` update keys in place, keeping this order). -/
def toJTop (td : TokenData) : JTop :=
  .obj [("total", .scalar (.jint td.total)),
        ("by_agent", .obj (td.by_agent.map (fun p => (p.1, JScalar.jint p.2)))),
        ("by_phase", .obj (td.by_phase.map (fun p => (p.1, JScalar.jint p.2)))),
        ("session_start", td.session_start),
        ("last_update", .scalar (.jstr td.last_update))]

/-- Writing the in-memory data back with `json.dump(..., separators=(",", ":"))`. -/
def writeTD (td : TokenData) : FileC :=
  .file (some (toJTop td)) (jsonSizeTop (toJTop td))

/-! ## `validate_and_clean_token_data` -/

/-- One pass of the by_agent/by_phase cleaning loop: keep `(k, c)` when the
count is an int or bool with `c >= 0`, coerced by `int(...)`. -/
def cleanEntries : List (String × JScalar) → List (String × Int)
  | [] => []
  | (k, .jint n) :: rest =>
      if 0 ≤ n then (k, n) :: cleanEntries rest else cleanEntries rest
  | (k, .jbool b) :: rest => (k, if b then (1 : Int) else 0) :: cleanEntries rest
  | (_, .jstr _) :: rest => cleanEntries rest
  | (_, .jnull) :: rest => cleanEntries rest

/-- The by_agent branch: only kept when the value is a dict of size at most
`MAX_TOKEN_SESSIONS` (25). -/
def cleanByAgent : JVal → List (String × Int)
  | .obj e => if e.length ≤ MAX_TOKEN_SESSIONS then cleanEntries e else []
  | .scalar _ => []

/-- The by_phase branch: kept whenever the value is a dict. -/
def cleanByPhase : JVal → List (String × Int)
  | .obj e => cleanEntries e
  | .scalar _ => []

/-- `validate_and_clean_token_data`: a non-dict becomes an empty record; a
dict gets `total := max(0, int(total))` (which may raise), the cleaned
bucket maps, the carried-over `session_start` and a fresh `last_update`. -/
def validate_and_clean_token_data (v : JTop) (now : Nat) : Except String TokenData :=
  match v with
  | .scalar _ => .ok (create_empty_token_data now)
  | .obj d =>
      match pyIntOf (dlookupD d "total" (.scalar (.jint 0))) with
      | .error e => .error e
      | .ok n =>
          .ok { total := max 0 n,
                by_agent := cleanByAgent (dlookupD d "by_agent" (.obj [])),
                by_phase := cleanByPhase (dlookupD d "by_phase" (.obj [])),
                session_start := dlookupD d "session_start" (.scalar (.jstr (tstr now))),
                last_update := tstr now }

/-! ## `map_agent_to_phase` -/

def map_agent_to_phase (agent_type : String) : Option String :=
  dlookup [("compass-captain", "coordination"),
           ("compass-knowledge-query", "phase1_knowledge_query"),
           ("compass-pattern-apply", "phase2_pattern_application"),
           ("compass-doc-planning", "phase2_documentation_planning"),
           ("compass-data-flow", "phase2_data_flow_analysis"),
           ("compass-gap-analysis", "phase3_gap_analysis"),
           ("compass-enhanced-analysis", "phase4_enhanced_analysis"),
           ("compass-cross-reference", "phase5_cross_reference"),
           ("compass-coder", "phase6_execution_bridge")] agent_type

/-! ## Magnitude eviction (`cleanup_old_agents_optimized` / `cleanup_old_phases`) -/

/-- `sorted(items, key=lambda x: x[1], reverse=True)`: stable descending
sort by count (insertion sort is stable, like Python's sort). -/
def sortDescInt (l : List (String × Int)) : List (String × Int) :=
  List.insertionSort (fun p q => q.2 ≤ p.2) l

/-! ## The mutation step of `update_session_token_count`

Returns the updated data together with a ghost flag telling whether a
bound-triggered eviction (`cleanup_old_agents_optimized` or
`cleanup_old_phases`) fired during this step. -/

def applyRecord (agent_type : String) (token_count : Int) (now : Nat)
    (td : TokenData) : TokenData × Bool :=
  let ba := dinsert td.by_agent agent_type (dlookupD td.by_agent agent_type 0 + token_count)
  let bp := match map_agent_to_phase agent_type with
    | some ph => dinsert td.by_phase ph (dlookupD td.by_phase ph 0 + token_count)
    | none => td.by_phase
  let evA := decide (MAX_AGENT_TRACKING < ba.length)
  let ba2 := if evA then (sortDescInt ba).take MAX_AGENT_TRACKING else ba
  let evP := decide (MAX_PHASE_TRACKING < bp.length)
  let bp2 := if evP then (sortDescInt bp).take MAX_PHASE_TRACKING else bp
  ({ total := td.total + token_count, by_agent := ba2, by_phase := bp2,
     session_start := td.session_start, last_update := tstr now }, evA || evP)

/-! ## `perform_emergency_token_cleanup` and `cleanup_token_file` -/

/-- The minimal data written when the original file is too large. -/
def emergencyTop (now : Nat) : JTop :=
  .obj [("total", .scalar (.jint 0)),
        ("session_start", .scalar (.jstr (tstr now))),
        ("last_update", .scalar (.jstr (tstr now))),
        ("by_agent", .obj []),
        ("by_phase", .obj []),
        ("emergency_cleanup", .scalar (.jbool true)),
        ("cleanup_timestamp", .scalar (.jstr (tstr now)))]

/-- The minimal file written when the original is too large. -/
def perform_emergency_token_cleanup (now : Nat) : FileC :=
  .file (some (emergencyTop now)) (jsonSizeTop (emergencyTop now))

/-- `min(data.get("total", 0), 1000000)`: defined on ints and bools (both
numerically below the cap, so a bool is returned unchanged), `TypeError`
on strings, `None` and dicts. -/
def pyMinCap : JVal → Except String JScalar
  | .scalar (.jint n) => .ok (.jint (min n 1000000))
  | .scalar (.jbool b) => .ok (.jbool b)
  | .scalar (.jstr _) => .error "TypeError"
  | .scalar .jnull => .error "TypeError"
  | .obj _ => .error "TypeError"

def scalarInt : JScalar → Int
  | .jint n => n
  | .jbool b => if b then 1 else 0
  | .jstr _ => 0
  | .jnull => 0

def isIntScalar : JScalar → Bool
  | .jint _ => true
  | _ => false

/-- Numbers (ints and bools) are mutually comparable in Python. -/
def isNumScalar : JScalar → Bool
  | .jint _ => true
  | .jbool _ => true
  | _ => false

def isStrScalar : JScalar → Bool
  | .jstr _ => true
  | _ => false

def scalarStr : JScalar → String
  | .jstr s => s
  | _ => ""

/-- Stable descending sort by count, over loosely-typed counts. -/
def sortDescScalar (e : List (String × JScalar)) : List (String × JScalar) :=
  List.insertionSort (fun p q => scalarInt q.2 ≤ scalarInt p.2) e

/-- `dict(sorted(d.items(), key=lambda x: x[1], reverse=True)[:k])` on a
loosely-typed dict: a non-dict value is skipped (`isinstance` guard),
singleton and empty dicts involve no comparison, all-numeric counts
(ints and bools, `True == 1`) sort by value, all-string counts sort
lexicographically, and any other mix of two or more entries raises
`TypeError` on the first cross-type comparison, like Python's sort. -/
def sortedTake (v : JVal) (k : Nat) : Except String (List (String × JScalar)) :=
  match v with
  | .obj e =>
      if e.length ≤ 1 then .ok (e.take k)
      else if e.all (fun p => isNumScalar p.2) then .ok ((sortDescScalar e).take k)
      else if e.all (fun p => isStrScalar p.2) then
        .ok ((List.insertionSort (fun p q => scalarStr q.2 ≤ scalarStr p.2) e).take k)
      else .error "TypeError"
  | .scalar _ => .ok []

/-- `cleanup_token_file`: oversized files get the emergency rewrite; a
parse failure (or a missing file, whose `stat` raises `OSError`) ends in
`unlink(missing_ok=True)`; parseable content is compacted, but `TypeError`
(non-numeric total, `AttributeError` for a non-dict top level) escapes the
`except (json.JSONDecodeError, OSError, MemoryError)` clause. -/
def cleanup_token_file (fs : FileC) (now : Nat) : Except String FileC :=
  match fs with
  | .missing => .ok .missing
  | .file p size =>
      if MAX_TOKEN_FILE_SIZE < size then .ok (perform_emergency_token_cleanup now)
      else
        match p with
        | none => .ok .missing
        | some (.scalar _) => .error "AttributeError"
        | some (.obj d) =>
            match pyMinCap (dlookupD d "total" (.scalar (.jint 0))) with
            | .error e => .error e
            | .ok ctotal =>
                match sortedTake (dlookupD d "by_agent" (.obj [])) 5 with
                | .error e => .error e
                | .ok ags =>
                    match sortedTake (dlookupD d "by_phase" (.obj [])) MAX_PHASE_TRACKING with
                    | .error e => .error e
                    | .ok phs =>
                        let out : JTop :=
                          .obj [("total", .scalar ctotal),
                                ("session_start", .scalar (.jstr (tstr now))),
                                ("last_update", .scalar (.jstr (tstr now))),
                                ("by_agent", .obj ags),
                                ("by_phase", .obj phs)]
                        .ok (.file (some out) (jsonSizeTop out))

/-! ## `load_json_memory_safe` -/

/-- Size pre-check, parse, then re-serialize-and-measure; every failure
collapses to `none`. The re-serialization is `len(json.dumps(data))` with
the DEFAULT padded separators, so it can exceed the bound even when the
compact on-disk size does not. -/
def load_json_memory_safe (fs : FileC) (maxSize : Nat) : Option JTop :=
  match fs with
  | .missing => none
  | .file p size =>
      if maxSize < size then none
      else
        match p with
        | none => none
        | some v => if maxSize < jsonDumpsSizeTop v then none else some v

/-! ## `update_session_token_count` -/

/-- The body under the file lock: load (memory-safe), reset to empty on a
`None` load, validate; a `ValueError`/`TypeError` raised by validation
escapes the inner `except` clause and aborts the call (caught by the
outermost handler, leaving the file untouched); otherwise mutate and
write. The two trailing booleans are ghost observations: whether a
bound-triggered eviction fired, and whether an existing file failed the
memory-safe load and was reset to an empty record. -/
def lockedPhase (agent_type : String) (token_count : Int) (now : Nat)
    (fs : FileC) : FileC × Bool × Bool :=
  match fs with
  | .missing =>
      let r := applyRecord agent_type token_count now (create_empty_token_data now)
      (writeTD r.1, r.2, false)
  | .file p size =>
      match load_json_memory_safe (.file p size) MAX_TOKEN_FILE_SIZE with
      | none =>
          let r := applyRecord agent_type token_count now (create_empty_token_data now)
          (writeTD r.1, r.2, true)
      | some v =>
          match validate_and_clean_token_data v now with
          | .error _ => (.file p size, false, false)
          | .ok td =>
              let r := applyRecord agent_type token_count now td
              (writeTD r.1, r.2, false)

/-- `update_session_token_count(agent_type, token_count)` acting on the
token file. The two trailing components are ghost observations: first,
whether a size-triggered `cleanup_token_file` or a bound-triggered
eviction fired during the call; second, whether an existing file failed
the memory-safe load and was reset to an empty record before the call
was applied. Errors never escape (the function body is wrapped in
`except Exception`), so the result is a plain new file state. -/
def update_session_token_count (agent_type : String) (token_count : Int)
    (now : Nat) (fs : FileC) : FileC × Bool × Bool :=
  match fs with
  | .missing => lockedPhase agent_type token_count now .missing
  | .file p size =>
      if MAX_TOKEN_FILE_SIZE < size then
        match cleanup_token_file (.file p size) now with
        | .error _ => (.file p size, true, false)
        | .ok fs1 =>
            let r := lockedPhase agent_type token_count now fs1
            (r.1, true, r.2.2)
      else lockedPhase agent_type token_count now (.file p size)

/-- A sequence of `record` calls `(agent, amount, time)`, threading the
file state and accumulating the two ghost flags: eviction/cleanup fired,
and load-failure reset of an existing file. -/
def runRecords : List (String × Int × Nat) → FileC → FileC × Bool × Bool
  | [], fs => (fs, false, false)
  | c :: calls, fs =>
      let r := update_session_token_count c.1 c.2.1 c.2.2 fs
      let rest := runRecords calls r.1
      (rest.1, r.2.1 || rest.2.1, r.2.2 || rest.2.2)

/-- The sum of the amounts of a sequence of `record` calls. -/
def sumAmounts (calls : List (String × Int × Nat)) : Int :=
  (calls.map (fun c => c.2.1)).sum

/-! ## `get_current_session_tokens` -/

def zeroTokens : JTop :=
  .obj [("total", .scalar (.jint 0)), ("by_agent", .obj []), ("by_phase", .obj [])]

/-- `get_current_session_tokens`: missing file reports zeros; an oversized
file (2 MiB read-side limit) is cleaned (exceptions swallowed) and zeros
reported; a parse failure attempts a cleanup (exceptions swallowed) and
reports zeros; a `ValueError` from validation does the same; a `TypeError`
lands in the final `except Exception` with no cleanup; a valid load
reports the cleaned data without writing anything back. -/
def get_current_session_tokens (fs : FileC) (now : Nat) : JTop × FileC :=
  match fs with
  | .missing => (zeroTokens, .missing)
  | .file p size =>
      if 2 * 1024 * 1024 < size then
        match cleanup_token_file (.file p size) now with
        | .ok fs1 => (zeroTokens, fs1)
        | .error _ => (zeroTokens, .file p size)
      else
        match p with
        | none =>
            match cleanup_token_file (.file p size) now with
            | .ok fs1 => (zeroTokens, fs1)
            | .error _ => (zeroTokens, .file p size)
        | some v =>
            match validate_and_clean_token_data v now with
            | .ok td => (toJTop td, .file p size)
            | .error e =>
                if e = "ValueError" then
                  match cleanup_token_file (.file p size) now with
                  | .ok fs1 => (zeroTokens, fs1)
                  | .error _ => (zeroTokens, .file p size)
                else (zeroTokens, .file p size)

/-! ## Projections on reported results and persisted files -/

def totalOf : JTop → Option JVal
  | .obj d => dlookup d "total"
  | .scalar _ => none

def byAgentOf : JTop → Option JVal
  | .obj d => dlookup d "by_agent"
  | .scalar _ => none

def byPhaseOf : JTop → Option JVal
  | .obj d => dlookup d "by_phase"
  | .scalar _ => none

def sessionStartOf : JTop → Option JVal
  | .obj d => dlookup d "session_start"
  | .scalar _ => none

def persistedByAgent : FileC → List (String × JScalar)
  | .file (some (.obj d)) _ =>
      match dlookup d "by_agent" with
      | some (.obj e) => e
      | _ => []
  | _ => []

def persistedByPhase : FileC → List (String × JScalar)
  | .file (some (.obj d)) _ =>
      match dlookup d "by_phase" with
      | some (.obj e) => e
      | _ => []
  | _ => []

def persistedTotal : FileC → Option JVal
  | .file (some (.obj d)) _ => dlookup d "total"
  | _ => none

end Compass

namespace Compass

/-! ## Claim C2: the 51-agent eviction scenario -/

/-- The spec scenario: 51 distinct agents recorded once each with amounts
1, 2, ..., 51, in increasing order, starting from no ledger file. -/
def c2Calls : List (String × Int × Nat) :=
  (List.range 51).map (fun i => ("agent" ++ toString (i + 1), ((i : Int) + 1, 0)))

def c2Final : FileC := (runRecords c2Calls .missing).1

end Compass

/-- Claim C2: starting from no ledger file, after 51 `record` calls for 51
distinct agents with amounts 1..51, the persisted by_agent map has no
entry with count 1, the by_agent map has at most 50 entries and the
by_phase map at most 8, and the persisted total is 1326 — the historical
sum is never reduced by eviction. -/
theorem Compass.C2_eviction_scenario :
    (∀ p ∈ persistedByAgent c2Final, p.2 ≠ JScalar.jint 1)
      ∧ (persistedByAgent c2Final).length ≤ 50
      ∧ (persistedByPhase c2Final).length ≤ 8
      ∧ persistedTotal c2Final = some (.scalar (.jint 1326)) := by
  decide


namespace Compass

/-! ## Decidable equality for `Except` results -/

instance {α β : Type} [DecidableEq α] [DecidableEq β] : DecidableEq (Except α β) :=
  fun a b =>
    match a, b with
    | .ok x, .ok y =>
        if h : x = y then isTrue (h ▸ rfl)
        else isFalse (fun hh => h (Except.ok.inj hh))
    | .error x, .error y =>
        if h : x = y then isTrue (h ▸ rfl)
        else isFalse (fun hh => h (Except.error.inj hh))
    | .ok _, .error _ => isFalse (fun h => Except.noConfusion h)
    | .error _, .ok _ => isFalse (fun h => Except.noConfusion h)

/-! ## Claim C3: recovery from invalid ledger content -/

/-- A parseable ledger whose `total` is a non-numeric string: structurally
invalid content. -/
def fsC3 : FileC := .file (some (.obj [("total", .scalar (.jstr "abc"))])) 30

end Compass

/-- Claim C3 counterexample: with a structurally invalid ledger (a
parseable file whose `total` is the string "abc"), `record("x", 10)`
completes without raising but aborts internally (the `ValueError` from
`int("abc")` escapes the inner `except` clause), so the subsequent
`read()` reports total 0, not 10 — refuting the claim that any load
failure resets the record before the current `record` call is applied. -/
theorem Compass.C3_counterexample :
    totalOf (get_current_session_tokens
        (update_session_token_count "x" 10 0 fsC3).1 1).1
      = some (.scalar (.jint 0)) ∧
    totalOf (get_current_session_tokens
        (update_session_token_count "x" 10 0 fsC3).1 1).1
      ≠ some (.scalar (.jint 10)) := by
  decide

/-- Claim C3 (amended): for a ledger file whose content is unparseable
JSON or whose on-disk size exceeds the 256 KiB bound, the next
`record("x", 10)` completes and a subsequent `read()` reports total 10:
those load failures reset the record to empty before the `record` call is
applied. (Structurally invalid but parseable content instead aborts the
`record` internally, see the counterexample.) -/
theorem Compass.C3_amended (p : Option JTop) (size : Nat)
    (h : p = none ∨ MAX_TOKEN_FILE_SIZE < size) :
    totalOf (get_current_session_tokens
        (update_session_token_count "x" 10 0 (.file p size)).1 1).1
      = some (.scalar (.jint 10)) := by
  by_cases hs : MAX_TOKEN_FILE_SIZE < size
  · have e1 : update_session_token_count "x" 10 0 (.file p size)
        = ((lockedPhase "x" 10 0 (perform_emergency_token_cleanup 0)).1, true,
           (lockedPhase "x" 10 0 (perform_emergency_token_cleanup 0)).2.2) := by
      simp only [update_session_token_count, cleanup_token_file, if_pos hs]
    rw [e1]
    decide
  · have hp : p = none := by
      rcases h with h | h
      · exact h
      · exact absurd h hs
    subst hp
    have e2 : lockedPhase "x" 10 0 (.file none size)
        = (writeTD (applyRecord "x" 10 0 (create_empty_token_data 0)).1,
           (applyRecord "x" 10 0 (create_empty_token_data 0)).2, true) := by
      simp only [lockedPhase, load_json_memory_safe, if_neg hs]
    have e3 : update_session_token_count "x" 10 0 (.file none size)
        = (writeTD (applyRecord "x" 10 0 (create_empty_token_data 0)).1,
           (applyRecord "x" 10 0 (create_empty_token_data 0)).2, true) := by
      simp only [update_session_token_count, if_neg hs, e2]
    rw [e3]
    decide

/-- Claim C3 amended, witness: an unparseable file of size 40 and an
oversized file of size 300000 both lead to a read of total 10 after
`record("x", 10)`. -/
theorem Compass.C3_amended_witness :
    totalOf (get_current_session_tokens
        (update_session_token_count "x" 10 0 (.file none 40)).1 1).1
      = some (.scalar (.jint 10)) ∧
    totalOf (get_current_session_tokens
        (update_session_token_count "x" 10 0
          (.file (some (.obj [("total", .scalar (.jint 7))])) 300000)).1 1).1
      = some (.scalar (.jint 10)) :=
  ⟨Compass.C3_amended none 40 (Or.inl rfl),
   Compass.C3_amended (some (.obj [("total", .scalar (.jint 7))])) 300000
     (Or.inr (by decide))⟩

namespace Compass

/-! ## Claim C4: read idempotence -/

/-- A valid ledger file that stores no `session_start` field. -/
def fsC4 : FileC := .file (some (.obj [("total", .scalar (.jint 5))])) 20

end Compass

/-- Claim C4 counterexample: two consecutive `read()` calls (at model
times 0 and 1) on the same on-disk state return different values — the
returned `last_update` (and, here, `session_start`) is freshly stamped
with the read time by `validate_and_clean_token_data` — refuting the
claim that the results are identical including the `session_start` and
`last_update` fields. -/
theorem Compass.C4_counterexample :
    (get_current_session_tokens fsC4 0).1
      ≠ (get_current_session_tokens (get_current_session_tokens fsC4 0).2 1).1 := by
  decide

/-- Claim C5 counterexample: `cleanup_token_file` on a small parseable
file whose `total` is the string "x" raises `TypeError` (from
`min("x", 1000000)`), which the `except (json.JSONDecodeError, OSError,
MemoryError)` clause does not catch — refuting the claim that the
function never raises. -/
theorem Compass.C5_counterexample :
    cleanup_token_file (.file (some (.obj [("total", .scalar (.jstr "x"))])) 100) 0
      = .error "TypeError" := by
  decide

namespace Compass

/-! ## Helper lemmas about validation and reads -/

/-- The three read projections a caller consumes: total, by_agent, by_phase. -/
def readProj (t : JTop) : Option JVal × Option JVal × Option JVal :=
  (totalOf t, byAgentOf t, byPhaseOf t)

theorem validate_obj_ok {d : List (String × JVal)} {n : Int} (t : Nat)
    (hp : pyIntOf (dlookupD d "total" (.scalar (.jint 0))) = .ok n) :
    validate_and_clean_token_data (.obj d) t
      = .ok { total := max 0 n,
              by_agent := cleanByAgent (dlookupD d "by_agent" (.obj [])),
              by_phase := cleanByPhase (dlookupD d "by_phase" (.obj [])),
              session_start := dlookupD d "session_start" (.scalar (.jstr (tstr t))),
              last_update := tstr t } := by
  simp [validate_and_clean_token_data, hp]

theorem validate_obj_error {d : List (String × JVal)} {e : String} (t : Nat)
    (hp : pyIntOf (dlookupD d "total" (.scalar (.jint 0))) = .error e) :
    validate_and_clean_token_data (.obj d) t = .error e := by
  simp [validate_and_clean_token_data, hp]

/-- Validation failures do not depend on the call time. -/
theorem validate_error_time {v : JTop} {t1 : Nat} {e : String} (t2 : Nat)
    (h : validate_and_clean_token_data v t1 = .error e) :
    validate_and_clean_token_data v t2 = .error e := by
  cases v with
  | scalar a => simp [validate_and_clean_token_data] at h
  | obj d =>
      cases hp : pyIntOf (dlookupD d "total" (.scalar (.jint 0))) with
      | error e' =>
          rw [validate_obj_error t1 hp] at h
          rw [validate_obj_error t2 hp, ← Except.error.inj h]
      | ok n => rw [validate_obj_ok t1 hp] at h; exact absurd h (by simp)

/-- A successful validation yields the same total and bucket maps at any
call time; only the timestamps differ. -/
theorem validate_ok_time {v : JTop} {t1 : Nat} {td : TokenData} (t2 : Nat)
    (h : validate_and_clean_token_data v t1 = .ok td) :
    ∃ td', validate_and_clean_token_data v t2 = .ok td'
      ∧ td'.total = td.total ∧ td'.by_agent = td.by_agent
      ∧ td'.by_phase = td.by_phase := by
  cases v with
  | scalar a =>
      have htd : create_empty_token_data t1 = td := by
        simpa [validate_and_clean_token_data] using h
      subst htd
      exact ⟨create_empty_token_data t2, rfl, rfl, rfl, rfl⟩
  | obj d =>
      cases hp : pyIntOf (dlookupD d "total" (.scalar (.jint 0))) with
      | error e => rw [validate_obj_error t1 hp] at h; exact absurd h (by simp)
      | ok n =>
          rw [validate_obj_ok t1 hp] at h
          refine ⟨_, validate_obj_ok t2 hp, ?_, ?_, ?_⟩ <;>
            rw [← Except.ok.inj h]

/-- A `ValueError` from validation means the stored total is a non-numeric
string; `min` on such a total raises `TypeError` inside
`cleanup_token_file`. -/
theorem validate_valueError_min {d : List (String × JVal)} {t : Nat}
    (h : validate_and_clean_token_data (.obj d) t = .error "ValueError") :
    pyMinCap (dlookupD d "total" (.scalar (.jint 0))) = .error "TypeError" := by
  cases htv : dlookupD d "total" (.scalar (.jint 0)) with
  | scalar a =>
      cases a with
      | jint n =>
          have hok : pyIntOf (dlookupD d "total" (.scalar (.jint 0))) = .ok n := by
            rw [htv]; rfl
          rw [validate_obj_ok t hok] at h
          exact absurd h (by simp)
      | jbool b =>
          have hok : pyIntOf (dlookupD d "total" (.scalar (.jint 0)))
              = .ok (if b then 1 else 0) := by
            rw [htv]; rfl
          rw [validate_obj_ok t hok] at h
          exact absurd h (by simp)
      | jstr s =>
          cases hps : pyParseInt s with
          | some n =>
              have hok : pyIntOf (dlookupD d "total" (.scalar (.jint 0))) = .ok n := by
                rw [htv]; simp [pyIntOf, hps]
              rw [validate_obj_ok t hok] at h
              exact absurd h (by simp)
          | none => rfl
      | jnull =>
          have herr : pyIntOf (dlookupD d "total" (.scalar (.jint 0)))
              = .error "TypeError" := by
            rw [htv]; rfl
          rw [validate_obj_error t herr] at h
          exact absurd (Except.error.inj h) (by decide)
  | obj e =>
      have herr : pyIntOf (dlookupD d "total" (.scalar (.jint 0)))
          = .error "TypeError" := by
        rw [htv]; rfl
      rw [validate_obj_error t herr] at h
      exact absurd (Except.error.inj h) (by decide)

/-- Reading the emergency-cleanup file reports zeros, at any time. -/
theorem get_emergency (t0 t : Nat) :
    readProj (get_current_session_tokens (perform_emergency_token_cleanup t0) t).1
      = readProj zeroTokens := by
  unfold perform_emergency_token_cleanup
  by_cases h : 2 * 1024 * 1024 < jsonSizeTop (emergencyTop t0)
  · have hm : MAX_TOKEN_FILE_SIZE < jsonSizeTop (emergencyTop t0) := by
      unfold MAX_TOKEN_FILE_SIZE; omega
    simp [get_current_session_tokens, h, cleanup_token_file, hm]
  · have hv : validate_and_clean_token_data (emergencyTop t0) t
        = .ok { total := 0, by_agent := [], by_phase := [],
                session_start := .scalar (.jstr (tstr t0)), last_update := tstr t } := rfl
    simp [get_current_session_tokens, h, hv, readProj, totalOf, byAgentOf,
      byPhaseOf, toJTop, zeroTokens, dlookup]

end Compass

/-- Claim C4 (amended): two consecutive `read()` calls with no intervening
`record()` report the same total, by_agent map and by_phase map (for every
on-disk state, any read times); the `last_update` field — and, when the
stored ledger has no `session_start` field, the `session_start` field —
is instead freshly stamped with each read's own time. -/
theorem Compass.C4_amended (fs : FileC) (t1 t2 : Nat) :
    readProj (get_current_session_tokens
        (get_current_session_tokens fs t1).2 t2).1
      = readProj (get_current_session_tokens fs t1).1 := by
  cases fs with
  | missing => rfl
  | file p size =>
      by_cases h2 : 2 * 1024 * 1024 < size
      · have hm : MAX_TOKEN_FILE_SIZE < size := by
          unfold MAX_TOKEN_FILE_SIZE; omega
        have hcl : cleanup_token_file (.file p size) t1
            = .ok (perform_emergency_token_cleanup t1) := by
          simp [cleanup_token_file, hm]
        have e1 : get_current_session_tokens (.file p size) t1
            = (zeroTokens, perform_emergency_token_cleanup t1) := by
          simp [get_current_session_tokens, h2, hcl]
        rw [e1]
        exact get_emergency t1 t2
      · cases p with
        | none =>
            by_cases hm : MAX_TOKEN_FILE_SIZE < size
            · have hcl : cleanup_token_file (.file none size) t1
                  = .ok (perform_emergency_token_cleanup t1) := by
                simp [cleanup_token_file, hm]
              have e1 : get_current_session_tokens (.file none size) t1
                  = (zeroTokens, perform_emergency_token_cleanup t1) := by
                simp [get_current_session_tokens, h2, hcl]
              rw [e1]
              exact get_emergency t1 t2
            · have hcl : cleanup_token_file (.file none size) t1 = .ok .missing := by
                simp [cleanup_token_file, hm]
              have e1 : get_current_session_tokens (.file none size) t1
                  = (zeroTokens, .missing) := by
                simp [get_current_session_tokens, h2, hcl]
              rw [e1]
              rfl
        | some v =>
            cases hv : validate_and_clean_token_data v t1 with
            | ok td =>
                have e1 : get_current_session_tokens (.file (some v) size) t1
                    = (toJTop td, .file (some v) size) := by
                  simp [get_current_session_tokens, h2, hv]
                rw [e1]
                obtain ⟨td2, hv2, ht, ha, hp⟩ := validate_ok_time t2 hv
                have e2 : get_current_session_tokens (.file (some v) size) t2
                    = (toJTop td2, .file (some v) size) := by
                  simp [get_current_session_tokens, h2, hv2]
                rw [e2]
                simp [readProj, totalOf, byAgentOf, byPhaseOf, toJTop, dlookup,
                  ht, ha, hp]
            | error e =>
                by_cases he : e = "ValueError"
                · subst he
                  by_cases hm : MAX_TOKEN_FILE_SIZE < size
                  · have hcl : cleanup_token_file (.file (some v) size) t1
                        = .ok (perform_emergency_token_cleanup t1) := by
                      simp [cleanup_token_file, hm]
                    have e1 : get_current_session_tokens (.file (some v) size) t1
                        = (zeroTokens, perform_emergency_token_cleanup t1) := by
                      simp [get_current_session_tokens, h2, hv, hcl]
                    rw [e1]
                    exact get_emergency t1 t2
                  · cases v with
                    | scalar a => simp [validate_and_clean_token_data] at hv
                    | obj d =>
                        have hmin := validate_valueError_min hv
                        have hcl : cleanup_token_file (.file (some (.obj d)) size) t1
                            = .error "TypeError" := by
                          simp [cleanup_token_file, hm, hmin]
                        have e1 : get_current_session_tokens
                            (.file (some (.obj d)) size) t1
                            = (zeroTokens, .file (some (.obj d)) size) := by
                          simp [get_current_session_tokens, h2, hv, hcl]
                        rw [e1]
                        have hv2 := validate_error_time t2 hv
                        have hcl2 : cleanup_token_file (.file (some (.obj d)) size) t2
                            = .error "TypeError" := by
                          simp [cleanup_token_file, hm, hmin]
                        have e2 : get_current_session_tokens
                            (.file (some (.obj d)) size) t2
                            = (zeroTokens, .file (some (.obj d)) size) := by
                          simp [get_current_session_tokens, h2, hv2, hcl2]
                        rw [e2]
                · have hv2 := validate_error_time t2 hv
                  have e1 : get_current_session_tokens (.file (some v) size) t1
                      = (zeroTokens, .file (some v) size) := by
                    simp [get_current_session_tokens, h2, hv, he]
                  have e2 : get_current_session_tokens (.file (some v) size) t2
                      = (zeroTokens, .file (some v) size) := by
                    simp [get_current_session_tokens, h2, hv2, he]
                  rw [e1, e2]

namespace Compass

theorem sortedTake_allInt {e : List (String × JScalar)} (k : Nat)
    (h : ∀ q ∈ e, isIntScalar q.2 = true) :
    sortedTake (.obj e) k = .ok ((sortDescScalar e).take k) := by
  cases e with
  | nil => rfl
  | cons x rest =>
      cases rest with
      | nil => rfl
      | cons y rest' =>
          have hlen : ¬ (x :: y :: rest').length ≤ 1 := by
            simp [List.length]
          have hall : (x :: y :: rest').all (fun q => isNumScalar q.2) = true := by
            rw [List.all_eq_true]
            intro q hq
            have h2 := h q hq
            cases hq2 : q.2 with
            | jint n => rfl
            | jstr s => rw [hq2] at h2; simp [isIntScalar] at h2
            | jbool b => rw [hq2] at h2; simp [isIntScalar] at h2
            | jnull => rw [hq2] at h2; simp [isIntScalar] at h2
          simp [sortedTake, hlen, hall]

/-- The compacted output of `cleanup_token_file` for a parseable dict with
int total `n`, int-counted agents `ags` and int-counted phases `phs`. -/
def compactedTop (now : Nat) (n : Int) (ags phs : List (String × JScalar)) : JTop :=
  .obj [("total", .scalar (.jint (min n 1000000))),
        ("session_start", .scalar (.jstr (tstr now))),
        ("last_update", .scalar (.jstr (tstr now))),
        ("by_agent", .obj ((sortDescScalar ags).take 5)),
        ("by_phase", .obj ((sortDescScalar phs).take MAX_PHASE_TRACKING))]

end Compass

/-- Claim C5 (amended): `compact` (`cleanup_token_file`) behaves as
follows. If the file exceeds 256 KiB it is replaced by the emergency
minimal ledger — the previous total is reset to 0, not kept. Otherwise,
unparseable content leads to outright deletion, and parseable content with
a numeric total and numeric counts is rewritten keeping the total capped
at 1,000,000, both timestamps reset to now, the top 5 by_agent entries and
the top 8 by_phase entries. The function is not exception-free: a
parseable file whose total is not a number raises `TypeError` (see the
counterexample). -/
theorem Compass.C5_amended :
    (∀ (p : Option JTop) (size now : Nat), MAX_TOKEN_FILE_SIZE < size →
        cleanup_token_file (.file p size) now
          = .ok (perform_emergency_token_cleanup now))
    ∧ (∀ (size now : Nat), ¬ MAX_TOKEN_FILE_SIZE < size →
        cleanup_token_file (.file none size) now = .ok .missing)
    ∧ (∀ (d : List (String × JVal)) (size now : Nat) (n : Int)
        (ags phs : List (String × JScalar)),
        ¬ MAX_TOKEN_FILE_SIZE < size →
        dlookupD d "total" (.scalar (.jint 0)) = .scalar (.jint n) →
        dlookupD d "by_agent" (.obj []) = .obj ags →
        (∀ q ∈ ags, isIntScalar q.2 = true) →
        dlookupD d "by_phase" (.obj []) = .obj phs →
        (∀ q ∈ phs, isIntScalar q.2 = true) →
        cleanup_token_file (.file (some (.obj d)) size) now
          = .ok (.file (some (compactedTop now n ags phs))
                       (jsonSizeTop (compactedTop now n ags phs)))) := by
  refine ⟨?_, ?_, ?_⟩
  · intro p size now hs
    simp [cleanup_token_file, hs]
  · intro size now hs
    simp [cleanup_token_file, hs]
  · intro d size now n ags phs hs htot hag hags hph hphs
    have h1 : pyMinCap (dlookupD d "total" (.scalar (.jint 0)))
        = .ok (.jint (min n 1000000)) := by
      rw [htot]; rfl
    have h2 : sortedTake (dlookupD d "by_agent" (.obj [])) 5
        = .ok ((sortDescScalar ags).take 5) := by
      rw [hag]; exact sortedTake_allInt 5 hags
    have h3 : sortedTake (dlookupD d "by_phase" (.obj [])) MAX_PHASE_TRACKING
        = .ok ((sortDescScalar phs).take MAX_PHASE_TRACKING) := by
      rw [hph]; exact sortedTake_allInt MAX_PHASE_TRACKING hphs
    simp [cleanup_token_file, hs, h1, h2, h3, compactedTop]

namespace Compass

def c5WitnessD : List (String × JVal) :=
  [("total", .scalar (.jint 3)),
   ("by_agent", .obj [("a", .jint 2), ("b", .jint 9)])]

end Compass

/-- Claim C5 amended, witness: the three branches at concrete inputs — an
oversized file, a small unparseable file, and a small parseable ledger
with total 3 and two agents. -/
theorem Compass.C5_amended_witness :
    cleanup_token_file (.file none 300000) 0
      = .ok (perform_emergency_token_cleanup 0)
    ∧ cleanup_token_file (.file none 10) 0 = .ok .missing
    ∧ cleanup_token_file (.file (some (.obj c5WitnessD)) 50) 0
      = .ok (.file (some (compactedTop 0 3 [("a", .jint 2), ("b", .jint 9)] []))
                   (jsonSizeTop (compactedTop 0 3 [("a", .jint 2), ("b", .jint 9)] []))) :=
  ⟨Compass.C5_amended.1 none 300000 0 (by decide),
   Compass.C5_amended.2.1 10 0 (by decide),
   Compass.C5_amended.2.2 c5WitnessD 50 0 3 [("a", .jint 2), ("b", .jint 9)] []
     (by decide) (by decide) (by decide) (by decide) (by decide) (by decide)⟩

/-- Claim C10: the validation step applied on every load discards the
entire by_agent map whenever it holds more than `MAX_TOKEN_SESSIONS` (25)
entries — the returned record has an empty by_agent — while the total
field is preserved; so per-agent buckets never survive a load once more
than 25 agents are tracked, well below the documented 50-entry bound. -/
theorem Compass.C10_validate_discards (d : List (String × JVal))
    (entries : List (String × JScalar)) (total : Int) (now : Nat)
    (hag : dlookupD d "by_agent" (.obj []) = .obj entries)
    (hlen : MAX_TOKEN_SESSIONS < entries.length)
    (htot : dlookupD d "total" (.scalar (.jint 0)) = .scalar (.jint total))
    (hpos : 0 ≤ total) :
    validate_and_clean_token_data (.obj d) now
      = .ok { total := total, by_agent := [],
              by_phase := cleanByPhase (dlookupD d "by_phase" (.obj [])),
              session_start := dlookupD d "session_start" (.scalar (.jstr (tstr now))),
              last_update := tstr now } := by
  have hok : pyIntOf (dlookupD d "total" (.scalar (.jint 0))) = .ok total := by
    rw [htot]; rfl
  have hlen' : ¬ entries.length ≤ MAX_TOKEN_SESSIONS := by omega
  have hba : cleanByAgent (dlookupD d "by_agent" (.obj [])) = [] := by
    rw [hag]; simp [cleanByAgent, hlen']
  rw [validate_obj_ok now hok, hba, max_eq_right hpos]

namespace Compass

/-- A ledger dict tracking 26 agents. -/
def c10D : List (String × JVal) :=
  [("total", .scalar (.jint 9)),
   ("by_agent", .obj ((List.range 26).map (fun i => ("a" ++ toString i, JScalar.jint 1))))]

end Compass

/-- Claim C10 witness: validating a stored ledger with 26 tracked agents
returns an empty by_agent map with the total 9 preserved. -/
theorem Compass.C10_witness :
    validate_and_clean_token_data (.obj c10D) 0
      = .ok { total := 9, by_agent := [], by_phase := [],
              session_start := .scalar (.jstr "0"), last_update := "0" } := by
  have h := Compass.C10_validate_discards c10D
      ((List.range 26).map (fun i => ("a" ++ toString i, JScalar.jint 1))) 9 0
      (by decide) (by decide) (by decide) (by decide)
  rw [h]
  decide

namespace Compass

/-! ## Claim C1: totals accumulate -/

theorem applyRecord_total (a : String) (amt : Int) (now : Nat) (td : TokenData) :
    (applyRecord a amt now td).1.total = td.total + amt := rfl

/-- Validating a file the ledger itself wrote preserves the total. -/
theorem validate_writeTD (td : TokenData) (now : Nat) (h : 0 ≤ td.total) :
    ∃ td1, validate_and_clean_token_data (toJTop td) now = .ok td1
      ∧ td1.total = td.total := by
  have hok : pyIntOf (dlookupD
      [("total", JVal.scalar (.jint td.total)),
       ("by_agent", JVal.obj (td.by_agent.map (fun p => (p.1, JScalar.jint p.2)))),
       ("by_phase", JVal.obj (td.by_phase.map (fun p => (p.1, JScalar.jint p.2)))),
       ("session_start", td.session_start),
       ("last_update", JVal.scalar (.jstr td.last_update))]
      "total" (.scalar (.jint 0))) = .ok td.total := rfl
  exact ⟨_, validate_obj_ok now hok, by simp [max_eq_right h]⟩

/-- One `record` call on a ledger-written file that triggers no cleanup,
no eviction and no load-failure reset loads, validates and rewrites,
adding the amount to the total. -/
theorem update_writeTD_step (a : String) (amt : Int) (now : Nat) (td : TokenData)
    (hpos : 0 ≤ td.total)
    (hfa : (update_session_token_count a amt now (writeTD td)).2.1 = false)
    (hfb : (update_session_token_count a amt now (writeTD td)).2.2 = false) :
    ∃ td2, update_session_token_count a amt now (writeTD td)
        = (writeTD td2, false, false)
      ∧ td2.total = td.total + amt := by
  by_cases hs : MAX_TOKEN_FILE_SIZE < jsonSizeTop (toJTop td)
  · exfalso
    have htrue : (update_session_token_count a amt now (writeTD td)).2.1 = true := by
      show (update_session_token_count a amt now
        (.file (some (toJTop td)) (jsonSizeTop (toJTop td)))).2.1 = true
      simp only [update_session_token_count]
      rw [if_pos hs]
      cases h : cleanup_token_file
          (.file (some (toJTop td)) (jsonSizeTop (toJTop td))) now with
      | error e => simp [h]
      | ok fs1 => simp [h]
    rw [htrue] at hfa
    exact Bool.noConfusion hfa
  · by_cases hpad : MAX_TOKEN_FILE_SIZE < jsonDumpsSizeTop (toJTop td)
    · exfalso
      have hload : load_json_memory_safe
          (.file (some (toJTop td)) (jsonSizeTop (toJTop td))) MAX_TOKEN_FILE_SIZE
          = none := by
        simp [load_json_memory_safe, hs, hpad]
      have htrue : (update_session_token_count a amt now (writeTD td)).2.2 = true := by
        show (update_session_token_count a amt now
          (.file (some (toJTop td)) (jsonSizeTop (toJTop td)))).2.2 = true
        simp only [update_session_token_count]
        rw [if_neg hs]
        simp only [lockedPhase, hload]
      rw [htrue] at hfb
      exact Bool.noConfusion hfb
    · have hload : load_json_memory_safe
          (.file (some (toJTop td)) (jsonSizeTop (toJTop td))) MAX_TOKEN_FILE_SIZE
          = some (toJTop td) := by
        simp [load_json_memory_safe, hs, hpad]
      obtain ⟨td1, hv, htot1⟩ := validate_writeTD td now hpos
      have hlock : lockedPhase a amt now (writeTD td)
          = (writeTD (applyRecord a amt now td1).1,
             (applyRecord a amt now td1).2, false) := by
        show lockedPhase a amt now
            (.file (some (toJTop td)) (jsonSizeTop (toJTop td))) = _
        simp only [lockedPhase, hload, hv]
      have hupd : update_session_token_count a amt now (writeTD td)
          = lockedPhase a amt now (writeTD td) := by
        show update_session_token_count a amt now
            (.file (some (toJTop td)) (jsonSizeTop (toJTop td))) = _
        simp only [update_session_token_count]
        rw [if_neg hs]
        rfl
      have hfl2 : (applyRecord a amt now td1).2 = false := by
        have := hfa
        rw [hupd, hlock] at this
        exact this
      refine ⟨(applyRecord a amt now td1).1, ?_, ?_⟩
      · rw [hupd, hlock, hfl2]
      · rw [applyRecord_total, htot1]

theorem sumAmounts_cons (c : String × Int × Nat) (cs : List (String × Int × Nat)) :
    sumAmounts (c :: cs) = c.2.1 + sumAmounts cs := by
  simp [sumAmounts]

/-- Running an eviction-free, reset-free sequence of records from a
ledger-written file adds the amounts to the total. -/
theorem runRecords_total (calls : List (String × Int × Nat)) :
    ∀ td : TokenData, 0 ≤ td.total → (∀ c ∈ calls, 0 ≤ c.2.1) →
    (runRecords calls (writeTD td)).2.1 = false →
    (runRecords calls (writeTD td)).2.2 = false →
    ∃ td', (runRecords calls (writeTD td)).1 = writeTD td'
      ∧ td'.total = td.total + sumAmounts calls ∧ 0 ≤ td'.total := by
  induction calls with
  | nil =>
      intro td h0 _ _ _
      exact ⟨td, rfl, by simp [sumAmounts], h0⟩
  | cons c cs ih =>
      intro td h0 hamts hfa hfb
      rw [runRecords] at hfa hfb
      have hsa := Bool.or_eq_false_iff.mp hfa
      have hsb := Bool.or_eq_false_iff.mp hfb
      obtain ⟨td2, hstep, htot2⟩ :=
        update_writeTD_step c.1 c.2.1 c.2.2 td h0 hsa.1 hsb.1
      have h02 : 0 ≤ td2.total := by
        rw [htot2]
        exact add_nonneg h0 (hamts c (List.mem_cons_self c cs))
      have hresta : (runRecords cs (writeTD td2)).2.1 = false := by
        have := hsa.2
        rw [hstep] at this
        exact this
      have hrestb : (runRecords cs (writeTD td2)).2.2 = false := by
        have := hsb.2
        rw [hstep] at this
        exact this
      obtain ⟨td', hrun, htot', h0'⟩ :=
        ih td2 h02 (fun x hx => hamts x (List.mem_cons_of_mem _ hx)) hresta hrestb
      refine ⟨td', ?_, ?_, h0'⟩
      · rw [runRecords, hstep]
        exact hrun
      · rw [htot', htot2, sumAmounts_cons]
        ring
end Compass

/-- Claim C1 (amended): for every sequence of `record(agent, amount)`
calls starting from no ledger file, with every amount non-negative, no
size-triggered cleanup or bound-triggered eviction fired during the
sequence, AND no load-failure reset of the ledger (in particular the
padded `json.dumps` re-serialization measured at load time also stays
within the 256 KiB bound), a subsequent `read()` (on a final file small
enough that the read triggers no cleanup) returns a total equal to the
sum of all the amounts. As originally stated — without excluding the
load-failure reset — the claim is false, see the counterexample. -/
theorem Compass.C1_record_sum (calls : List (String × Int × Nat)) (readNow : Nat)
    (hamt : ∀ c ∈ calls, 0 ≤ c.2.1)
    (hnoev : (runRecords calls .missing).2.1 = false)
    (hnores : (runRecords calls .missing).2.2 = false)
    (hsize : fileSize (runRecords calls .missing).1 ≤ 2 * 1024 * 1024) :
    totalOf (get_current_session_tokens (runRecords calls .missing).1 readNow).1
      = some (.scalar (.jint (sumAmounts calls))) := by
  cases calls with
  | nil => rfl
  | cons c cs =>
      have hstep : update_session_token_count c.1 c.2.1 c.2.2 .missing
          = (writeTD (applyRecord c.1 c.2.1 c.2.2 (create_empty_token_data c.2.2)).1,
             (applyRecord c.1 c.2.1 c.2.2 (create_empty_token_data c.2.2)).2,
             false) := rfl
      rw [runRecords, hstep] at hnoev hnores hsize ⊢
      dsimp only at hnoev hnores
      have hsa := Bool.or_eq_false_iff.mp hnoev
      have hsb := Bool.or_eq_false_iff.mp hnores
      set td1 := (applyRecord c.1 c.2.1 c.2.2 (create_empty_token_data c.2.2)).1 with htd1
      have htot1 : td1.total = c.2.1 := by
        rw [htd1, applyRecord_total]
        simp [create_empty_token_data]
      have h01 : 0 ≤ td1.total := by
        rw [htot1]; exact hamt c (List.mem_cons_self c cs)
      obtain ⟨td', hrun, htot', h0'⟩ := Compass.runRecords_total cs td1 h01
        (fun x hx => hamt x (List.mem_cons_of_mem _ hx)) hsa.2 hsb.2
      rw [hrun] at hsize ⊢
      have h2 : ¬ 2 * 1024 * 1024 < jsonSizeTop (toJTop td') := by
        simp only [writeTD, fileSize] at hsize
        omega
      obtain ⟨td2, hv, htot2⟩ := Compass.validate_writeTD td' readNow h0'
      have e1 : get_current_session_tokens (writeTD td') readNow
          = (toJTop td2, writeTD td') := by
        show get_current_session_tokens
            (.file (some (toJTop td')) (jsonSizeTop (toJTop td'))) readNow = _
        simp [get_current_session_tokens, h2, hv, writeTD]
      rw [e1]
      show some (JVal.scalar (JScalar.jint td2.total))
        = some (JVal.scalar (JScalar.jint (sumAmounts (c :: cs))))
      rw [htot2, htot', htot1, sumAmounts_cons]

/-- Claim C1 amended, witness: recording 5 for "a" and 7 for "b" from no
ledger file, then reading, reports total 12. -/
theorem Compass.C1_record_sum_witness :
    totalOf (get_current_session_tokens
        (runRecords [("a", 5, 0), ("b", 7, 0)] .missing).1 0).1
      = some (.scalar (.jint 12)) := by
  have h := Compass.C1_record_sum [("a", 5, 0), ("b", 7, 0)] 0
      (by decide) (by decide) (by decide) (by decide)
  rw [h]
  decide

namespace Compass

/-- An agent name of 262060 characters. The ledger that `record(bigName,
1)` writes has a compact on-disk size of 262141 bytes — inside the
256 KiB (262144) bound — while its padded `json.dumps` re-serialization,
the measure `load_json_memory_safe` applies, is 262151 bytes — over the
bound. -/
def bigName : String := ⟨List.replicate 262060 'z'⟩

/-- The ledger written by the first record call of the counterexample. -/
def c1Td1 : TokenData :=
  { total := 1, by_agent := [(bigName, 1)], by_phase := [],
    session_start := .scalar (.jstr "0"), last_update := "0" }

/-- The ledger written by the second record call, after the silent reset. -/
def c1Td2 : TokenData :=
  { total := 2, by_agent := [("b", 2)], by_phase := [],
    session_start := .scalar (.jstr "0"), last_update := "0" }

/-- Record 1 token for the long-named agent, then 2 tokens for "b". -/
def c1CexCalls : List (String × Int × Nat) := [(bigName, 1, 0), ("b", 2, 0)]

/-- Compact and padded serialized sizes of a one-agent ledger, as a
function of the agent name's length. -/
theorem c1Cex_sizes (nm : String) :
    jsonSizeTop (toJTop
        { total := 1, by_agent := [(nm, 1)], by_phase := [],
          session_start := .scalar (.jstr "0"), last_update := "0" })
      = nm.length + 81
    ∧ jsonDumpsSizeTop (toJTop
        { total := 1, by_agent := [(nm, 1)], by_phase := [],
          session_start := .scalar (.jstr "0"), last_update := "0" })
      = nm.length + 91 := by
  have k1 : String.length "total" = 5 := by decide
  have k2 : String.length "by_agent" = 8 := by decide
  have k3 : String.length "by_phase" = 8 := by decide
  have k4 : String.length "session_start" = 13 := by decide
  have k5 : String.length "last_update" = 11 := by decide
  have k6 : String.length "0" = 1 := by decide
  have k7 : (toString (1 : Int)).length = 1 := by decide
  constructor <;>
    simp [toJTop, jsonSizeTop, jsonDumpsSizeTop, jsonSizeJVal, jsonDumpsSizeJVal,
      jsonSizeObjS, jsonDumpsSizeObjS, jsonSizeScalar, List.sum_cons, List.sum_nil,
      k1, k2, k3, k4, k5, k6, k7] <;>
    omega

theorem bigName_length : bigName.length = 262060 := by
  simp only [bigName, String.length, List.length_replicate]

/-- Whenever the memory-safe load of an existing file fails, the locked
phase resets the record to empty, applies the call to the fresh record
and reports the reset through its second ghost flag. -/
theorem lockedPhase_load_none (a : String) (t : Int) (n : Nat)
    (p : Option JTop) (size : Nat)
    (hl : load_json_memory_safe (.file p size) MAX_TOKEN_FILE_SIZE = none) :
    lockedPhase a t n (.file p size)
      = (writeTD (applyRecord a t n (create_empty_token_data n)).1,
         (applyRecord a t n (create_empty_token_data n)).2, true) := by
  simp only [lockedPhase, hl]

end Compass

/-- Claim C1 counterexample: two record calls from no ledger file with
non-negative amounts 1 and 2 and no eviction or size-triggered cleanup
fired (the eviction ghost flag of the run is false, and the final file is
far below the read-side 2 MiB bound), yet the subsequent `read()` reports
total 2, not 1 + 2 = 3. The first call writes a ledger whose compact size
(262141 bytes) passes the 256 KiB pre-check, but whose padded
`json.dumps` re-serialization (262151 bytes) fails the in-lock check, so
the second call silently resets the record to empty (the reset ghost flag
is true) before adding its amount — refuting the claim as stated. -/
theorem Compass.C1_counterexample :
    (∀ c ∈ c1CexCalls, 0 ≤ c.2.1)
    ∧ (runRecords c1CexCalls .missing).2.1 = false
    ∧ fileSize (runRecords c1CexCalls .missing).1 ≤ 2 * 1024 * 1024
    ∧ sumAmounts c1CexCalls = 3
    ∧ totalOf (get_current_session_tokens (runRecords c1CexCalls .missing).1 0).1
        = some (.scalar (.jint 2))
    ∧ totalOf (get_current_session_tokens (runRecords c1CexCalls .missing).1 0).1
        ≠ some (.scalar (.jint (sumAmounts c1CexCalls)))
    ∧ (runRecords c1CexCalls .missing).2.2 = true := by
  have hS : jsonSizeTop (toJTop c1Td1) = 262141 := by
    have h := (c1Cex_sizes bigName).1
    rw [bigName_length] at h
    simpa [c1Td1] using h
  have hP : jsonDumpsSizeTop (toJTop c1Td1) = 262151 := by
    have h := (c1Cex_sizes bigName).2
    rw [bigName_length] at h
    simpa [c1Td1] using h
  have hpad : MAX_TOKEN_FILE_SIZE < jsonDumpsSizeTop (toJTop c1Td1) := by
    rw [hP]; decide
  have hload : load_json_memory_safe
      (.file (some (toJTop c1Td1)) 262141) MAX_TOKEN_FILE_SIZE = none := by
    simp only [load_json_memory_safe]
    rw [if_neg (by decide : ¬ MAX_TOKEN_FILE_SIZE < 262141), if_pos hpad]
  have hw : writeTD c1Td1 = .file (some (toJTop c1Td1)) 262141 := by
    simp only [writeTD, hS]
  have e1 : update_session_token_count bigName 1 0 .missing
      = (writeTD c1Td1, false, false) := rfl
  have e2a : update_session_token_count "b" 2 0 (.file (some (toJTop c1Td1)) 262141)
      = lockedPhase "b" 2 0 (.file (some (toJTop c1Td1)) 262141) := by
    simp only [update_session_token_count]
    rw [if_neg (by decide : ¬ MAX_TOKEN_FILE_SIZE < 262141)]
  have e2 : update_session_token_count "b" 2 0 (.file (some (toJTop c1Td1)) 262141)
      = (writeTD c1Td2, false, true) :=
    e2a.trans
      ((lockedPhase_load_none "b" 2 0 (some (toJTop c1Td1)) 262141 hload).trans
        (by decide))
  have e3 : runRecords c1CexCalls .missing = (writeTD c1Td2, false, true) := by
    show runRecords [(bigName, 1, 0), ("b", 2, 0)] .missing = _
    simp only [runRecords, e1, hw, e2, Bool.false_or, Bool.or_false]
  refine ⟨?_, ?_, ?_, ?_, ?_, ?_, ?_⟩
  · intro c hc
    simp only [c1CexCalls, List.mem_cons, List.not_mem_nil, or_false] at hc
    rcases hc with rfl | rfl
    · decide
    · decide
  · rw [e3]
  · rw [e3]; decide
  · decide
  · rw [e3]; decide
  · rw [e3]; decide
  · rw [e3]

namespace Compass

/-! ## Knowledge query cache (`get_cache_key`, `load_cached_knowledge`,
`save_knowledge_cache`, `execute_knowledge_query_subprocess`) -/

/-- `sorted(topic_keywords)`: Python's stable lexicographic sort; on the
linear order of strings any correct sort yields the same list. -/
def pySortedStrings (l : List String) : List String :=
  List.insertionSort (· ≤ ·) l

def pyStrRepr (s : String) : String := "'" ++ s ++ "'"

/-- `f"{sorted(topic_keywords)}"`: Python's list repr. -/
def pyListRepr (xs : List String) : String :=
  "[" ++ String.intercalate ", " (xs.map pyStrRepr) ++ "]"

/-- The pre-hash content string `f"{task_description}||{sorted(topic_keywords)}"`. -/
def cacheKeyContent (task_description : String) (topic_keywords : List String) : String :=
  task_description ++ "||" ++ pyListRepr (pySortedStrings topic_keywords)

/-- `get_cache_key`: the truncated sha256 hex digest of the content
string; the digest itself is a parameter `h` of the model (any fixed
deterministic function). -/
def get_cache_key (h : String → String) (task_description : String)
    (topic_keywords : List String) : String :=
  h (cacheKeyContent task_description topic_keywords)

/-- The cache directory: one entry per key, holding the file's mtime and
the pickled payload. -/
abbrev CState : Type := List (String × Nat × JTop)

/-- `load_cached_knowledge`: miss on absent key; if the entry is older
than the TTL, delete it and miss; otherwise hit. -/
def load_cached_knowledge (cache_key : String) (now : Nat) (cache : CState) :
    Option JTop × CState :=
  match dlookup cache cache_key with
  | none => (none, cache)
  | some e =>
      if (KNOWLEDGE_CACHE_TTL : Int) < (now : Int) - (e.1 : Int) then
        (none, derase cache cache_key)
      else (some e.2, cache)

/-- `save_knowledge_cache`: write/overwrite the entry with the current time. -/
def save_knowledge_cache (cache_key : String) (knowledge_data : JTop) (now : Nat)
    (cache : CState) : CState :=
  dinsert cache cache_key (now, knowledge_data)

def jscalarTruthy : JScalar → Bool
  | .jint n => decide (n ≠ 0)
  | .jstr s => decide (s ≠ "")
  | .jbool b => b
  | .jnull => false

/-- Python truthiness of a parsed value (`if cached_result:`). -/
def jtopTruthy : JTop → Bool
  | .scalar a => jscalarTruthy a
  | .obj l => decide (l ≠ [])

/-- The outcome of the isolated subprocess run, an input of the model:
timeout, or completion with a return code, the parse of its stdout and
its stderr text. -/
inductive SubprocOutcome where
  | timeout
  | completed (returncode : Nat) (stdoutParse : Option JTop) (stderr : String)
deriving DecidableEq, Repr

/-- The structured result dict of `execute_knowledge_query_subprocess`:
either a payload or `{"status": ..., "error": ..., "task_description": ...}`. -/
inductive KResult where
  | payload (data : JTop)
  | errorResult (status : String) (errorMsg : String) (task_description : String)
deriving DecidableEq, Repr

/-- The cache directory state: entries plus temporary script files. -/
structure KState where
  cache : CState
  scripts : List String

def sinsert (l : List String) (s : String) : List String :=
  if l.contains s then l else l ++ [s]

def sremove (l : List String) (s : String) : List String :=
  l.filter (fun x => x != s)

def scriptName (cache_key : String) : String :=
  "knowledge_query_" ++ cache_key ++ ".py"

/-- The part of `execute_knowledge_query_subprocess` after a cache miss:
write the script, run the subprocess, cache only a parsed zero-exit
result, and delete the script on every path (the `finally` clause). An
unparseable stdout raises `json.JSONDecodeError` past the `finally` into
the outer handler, giving a setup_error result. -/
def runSubprocessPhase (cache_key task_description : String)
    (outcome : SubprocOutcome) (now : Nat) (ks : KState) : KResult × KState :=
  let sname := scriptName cache_key
  let ks2 : KState := { ks with scripts := sinsert ks.scripts sname }
  match outcome with
  | .timeout =>
      (.errorResult "timeout" "Knowledge query timed out after 300s" task_description,
       { ks2 with scripts := sremove ks2.scripts sname })
  | .completed returncode stdoutParse stderr =>
      if returncode = 0 then
        match stdoutParse with
        | some data =>
            let ks3 : KState :=
              { ks2 with cache := save_knowledge_cache cache_key data now ks2.cache }
            (.payload data, { ks3 with scripts := sremove ks3.scripts sname })
        | none =>
            (.errorResult "setup_error" "JSONDecodeError" task_description,
             { ks2 with scripts := sremove ks2.scripts sname })
      else
        (.errorResult "subprocess_error"
           (if stderr = "" then "Unknown subprocess error" else stderr)
           task_description,
         { ks2 with scripts := sremove ks2.scripts sname })

/-- `execute_knowledge_query_subprocess`: return a truthy cached result,
otherwise delegate to the subprocess phase. -/
def execute_knowledge_query_subprocess (h : String → String)
    (task_description : String) (topic_keywords : List String)
    (outcome : SubprocOutcome) (now : Nat) (ks : KState) : KResult × KState :=
  let cache_key := get_cache_key h task_description topic_keywords
  let lr := load_cached_knowledge cache_key now ks.cache
  let ks1 : KState := { ks with cache := lr.2 }
  match lr.1 with
  | some c =>
      if jtopTruthy c then (.payload c, ks1)
      else runSubprocessPhase cache_key task_description outcome now ks1
  | none => runSubprocessPhase cache_key task_description outcome now ks1

/-! ## Dict lemmas for the cache -/

theorem dlookup_dinsert {α : Type} (d : List (String × α)) (k : String) (v : α) :
    dlookup (dinsert d k v) k = some v := by
  induction d with
  | nil => simp [dinsert, dlookup]
  | cons x rest ih =>
      by_cases h : x.1 = k
      · simp [dinsert, h, dlookup]
      · simp [dinsert, h, dlookup, ih]

theorem dlookup_derase {α : Type} (d : List (String × α)) (k : String) :
    dlookup (derase d k) k = none := by
  induction d with
  | nil => rfl
  | cons x rest ih =>
      by_cases h : x.1 = k
      · simpa [derase, h] using ih
      · simpa [derase, h, dlookup] using ih

theorem not_mem_sremove (l : List String) (s : String) : s ∉ sremove l s := by
  simp [sremove, List.mem_filter]

end Compass

/-- Claim C6: a cache entry stored at time T is a hit (returning the
stored payload) when read one second before the 1-hour TTL elapses, and a
miss one second after — and the miss deletes the stale entry. -/
theorem Compass.C6_cache_ttl (cache_key : String) (payload : JTop) (t : Nat)
    (cache : CState) :
    (load_cached_knowledge cache_key (t + KNOWLEDGE_CACHE_TTL - 1)
        (save_knowledge_cache cache_key payload t cache)).1 = some payload
    ∧ (load_cached_knowledge cache_key (t + KNOWLEDGE_CACHE_TTL + 1)
        (save_knowledge_cache cache_key payload t cache)).1 = none
    ∧ dlookup (load_cached_knowledge cache_key (t + KNOWLEDGE_CACHE_TTL + 1)
        (save_knowledge_cache cache_key payload t cache)).2 cache_key = none := by
  have hl := dlookup_dinsert cache cache_key ((t, payload) : Nat × JTop)
  have hfresh : ¬ (KNOWLEDGE_CACHE_TTL : Int)
      < ((t + KNOWLEDGE_CACHE_TTL - 1 : Nat) : Int) - (t : Int) := by
    unfold KNOWLEDGE_CACHE_TTL
    omega
  have hstale : (KNOWLEDGE_CACHE_TTL : Int)
      < ((t + KNOWLEDGE_CACHE_TTL + 1 : Nat) : Int) - (t : Int) := by
    unfold KNOWLEDGE_CACHE_TTL
    omega
  refine ⟨?_, ?_, ?_⟩
  · simp only [load_cached_knowledge, save_knowledge_cache, hl]
    rw [if_neg hfresh]
  · simp only [load_cached_knowledge, save_knowledge_cache, hl]
    rw [if_pos hstale]
  · simp only [load_cached_knowledge, save_knowledge_cache, hl]
    rw [if_pos hstale]
    exact dlookup_derase _ _

namespace Compass

/-- A cache holding one stale entry (stored at time 0) for the key of the
query "d" with no keywords, under the identity digest. -/
def ksC7 : KState :=
  { cache := [("d||[]", (0, JTop.obj [("x", .scalar (.jint 1))]))], scripts := [] }

end Compass

/-- Claim C7 counterexample: a timed-out query that reached the subprocess
because its cache entry was stale does NOT leave the cache directory's
entries unchanged — the lookup deletes the stale entry before the
subprocess runs — refuting the conjunct "the cache directory's entries
are unchanged". -/
theorem Compass.C7_counterexample :
    (execute_knowledge_query_subprocess (fun s => s) "d" [] .timeout 4000 ksC7).2.cache
      ≠ ksC7.cache := by
  decide

/-- Claim C7 (amended): for every query that reaches the external
subprocess (no truthy cached result), if the subprocess times out or
completes with a non-zero exit code, the call returns a structured error
result carrying a non-empty reason string instead of raising, stores
nothing in the cache — the entries are exactly those left by the lookup,
which may at most have deleted this key's stale entry — and the
temporary script file is deleted regardless of outcome. -/
theorem Compass.C7_amended (h : String → String) (task_description : String)
    (topic_keywords : List String) (outcome : SubprocOutcome) (now : Nat)
    (ks : KState)
    (hmiss : ∀ c, (load_cached_knowledge
        (get_cache_key h task_description topic_keywords) now ks.cache).1 = some c →
        jtopTruthy c = false)
    (houtcome : outcome = .timeout
      ∨ ∃ rc sp se, outcome = .completed rc sp se ∧ rc ≠ 0) :
    (∃ st msg,
        (execute_knowledge_query_subprocess h task_description topic_keywords
          outcome now ks).1 = .errorResult st msg task_description ∧ msg ≠ "")
    ∧ (execute_knowledge_query_subprocess h task_description topic_keywords
        outcome now ks).2.cache
      = (load_cached_knowledge
          (get_cache_key h task_description topic_keywords) now ks.cache).2
    ∧ scriptName (get_cache_key h task_description topic_keywords)
        ∉ (execute_knowledge_query_subprocess h task_description topic_keywords
            outcome now ks).2.scripts := by
  have hrun : execute_knowledge_query_subprocess h task_description topic_keywords
      outcome now ks
      = runSubprocessPhase (get_cache_key h task_description topic_keywords)
          task_description outcome now
          { ks with cache := (load_cached_knowledge
              (get_cache_key h task_description topic_keywords) now ks.cache).2 } := by
    unfold execute_knowledge_query_subprocess
    cases hc : (load_cached_knowledge
        (get_cache_key h task_description topic_keywords) now ks.cache).1 with
    | none => simp [hc]
    | some c =>
        have := hmiss c hc
        simp [hc, this]
  rw [hrun]
  rcases houtcome with ht | ⟨rc, sp, se, hco, hrc⟩
  · subst ht
    refine ⟨⟨"timeout", "Knowledge query timed out after 300s", rfl, by decide⟩,
      rfl, ?_⟩
    exact not_mem_sremove _ _
  · subst hco
    have hrc' : ¬ rc = 0 := hrc
    by_cases hse : se = ""
    · refine ⟨⟨"subprocess_error", "Unknown subprocess error", ?_, by decide⟩, ?_, ?_⟩
      · simp [runSubprocessPhase, hrc', hse]
      · simp [runSubprocessPhase, hrc']
      · simp only [runSubprocessPhase]
        rw [if_neg hrc']
        exact not_mem_sremove _ _
    · refine ⟨⟨"subprocess_error", se, ?_, hse⟩, ?_, ?_⟩
      · simp [runSubprocessPhase, hrc', hse]
      · simp [runSubprocessPhase, hrc']
      · simp only [runSubprocessPhase]
        rw [if_neg hrc']
        exact not_mem_sremove _ _

/-- Claim C7 amended, witness: a timed-out query on an empty cache returns
the timeout error, leaves the cache empty, and leaves no script behind. -/
theorem Compass.C7_amended_witness :
    (∃ st msg,
        (execute_knowledge_query_subprocess (fun s => s) "d" [] .timeout 0
          { cache := [], scripts := [] }).1 = .errorResult st msg "d" ∧ msg ≠ "")
    ∧ (execute_knowledge_query_subprocess (fun s => s) "d" [] .timeout 0
        { cache := [], scripts := [] }).2.cache
      = (load_cached_knowledge (get_cache_key (fun s => s) "d" []) 0
          ([] : CState)).2
    ∧ scriptName (get_cache_key (fun s => s) "d" [])
        ∉ (execute_knowledge_query_subprocess (fun s => s) "d" [] .timeout 0
            { cache := [], scripts := [] }).2.scripts :=
  Compass.C7_amended (fun s => s) "d" [] .timeout 0 { cache := [], scripts := [] }
    (fun c hc => by simp [load_cached_knowledge, dlookup] at hc)
    (Or.inl rfl)

/-- Claim C8: the cache key is invariant under permutation of the keyword
list — the keywords are sorted before hashing, so semantically identical
queries address the same cache entry. -/
theorem Compass.C8_cache_key_perm (h : String → String) (task_description : String)
    (kws1 kws2 : List String) (hperm : kws1.Perm kws2) :
    get_cache_key h task_description kws1 = get_cache_key h task_description kws2 := by
  have hsorted : pySortedStrings kws1 = pySortedStrings kws2 := by
    unfold pySortedStrings
    refine List.eq_of_perm_of_sorted ?_
      (List.sorted_insertionSort _ _) (List.sorted_insertionSort _ _)
    exact (List.perm_insertionSort _ _).trans
      (hperm.trans (List.perm_insertionSort _ _).symm)
  unfold get_cache_key cacheKeyContent
  rw [hsorted]

/-- Claim C8 witness: the two orderings of the keywords "a", "b" produce
the same cache key. -/
theorem Compass.C8_witness :
    get_cache_key (fun s => s) "task" ["b", "a"]
      = get_cache_key (fun s => s) "task" ["a", "b"] :=
  Compass.C8_cache_key_perm (fun s => s) "task" ["b", "a"] ["a", "b"] (by decide)

namespace Compass

/-! ## Activity sensor (`compass_context_active` and its signals) -/

/-- A parsed journal line: `{action, agent_type, timestamp}` (absent keys
read as `""` through `.get`). -/
structure LogEntry where
  action : String
  agent_type : String
  timestamp : String
deriving DecidableEq, Repr

/-- The on-disk state the activity sensor consults: the status-marker
file, the session marker (`None` = missing, `some none` = unparseable),
the journal lines (`none` entries are unparseable lines), the mtimes of
`docs/*.md`, and the token ledger parsed as a dict. -/
structure ActivityFS where
  statusFileExists : Bool
  sessionFile : Option (Option (List (String × JVal)))
  logFile : Option (List (Option LogEntry))
  docsMtimes : List Nat
  tokenFile : Option (Option (List (String × JVal)))
deriving DecidableEq, Repr

/-- `is_recent_timestamp_extended`: within the last 30 minutes; any parse
failure yields `False`. -/
def is_recent_timestamp_extended (timestamp_str : String) (now : Nat) : Bool :=
  match parseTs timestamp_str with
  | some ts => decide ((now : Int) - (ts : Int) < 1800)
  | none => false

/-- `is_session_timestamp_valid`: within the given threshold; any parse
failure yields `False`. -/
def is_session_timestamp_valid (timestamp_str : String) (seconds_threshold : Nat)
    (now : Nat) : Bool :=
  match parseTs timestamp_str with
  | some ts => decide ((now : Int) - (ts : Int) < (seconds_threshold : Int))
  | none => false

/-- Threshold check on a loosely-typed stored value: a non-string raises
`AttributeError` inside the checker's own `except Exception`, giving
`False`. -/
def jvTsValid (v : JVal) (seconds_threshold : Nat) (now : Nat) : Bool :=
  match v with
  | .scalar (.jstr s) => is_session_timestamp_valid s seconds_threshold now
  | _ => false

def jvRecentExt (v : JVal) (now : Nat) : Bool :=
  match v with
  | .scalar (.jstr s) => is_recent_timestamp_extended s now
  | _ => false

/-- `check_compass_session_active`: the session marker is live when its
`session_start` is within 2 hours or its `last_activity` within 30
minutes. -/
def check_compass_session_active
    (sessionFile : Option (Option (List (String × JVal)))) (now : Nat) : Bool :=
  match sessionFile with
  | none => false
  | some none => false
  | some (some d) =>
      jvTsValid (dlookupD d "session_start" (.scalar (.jstr ""))) 7200 now
      || jvTsValid (dlookupD d "last_activity" (.scalar (.jstr ""))) 1800 now

/-- Structural model of `str.startswith(pre)`. -/
def listStartsWith : List Char → List Char → Bool
  | [], _ => true
  | _ :: _, [] => false
  | c :: cs, d :: ds => c == d && listStartsWith cs ds

def strStartsWith (s pre : String) : Bool := listStartsWith pre.data s.data

def compass_actions : List String :=
  ["compass_required", "agent_active", "token_tracking", "prompt_routing",
   "phase_update", "compass_complete"]

def logLineActive (l : Option LogEntry) (now : Nat) : Bool :=
  match l with
  | none => false
  | some e =>
      (compass_actions.contains e.action
        && is_recent_timestamp_extended e.timestamp now)
      || (strStartsWith e.agent_type "compass-"
        && is_recent_timestamp_extended e.timestamp now)

/-- The journal signal: any of the last 20 lines carries a recognized
action or a compass- agent with a recent timestamp. -/
def checkLogActivity (logFile : Option (List (Option LogEntry))) (now : Nat) : Bool :=
  match logFile with
  | none => false
  | some lines => (lines.drop (lines.length - 20)).any (fun l => logLineActive l now)

/-- The documentation signal: any `docs/*.md` modified in the last 30
minutes. -/
def checkRecentDocs (docsMtimes : List Nat) (now : Nat) : Bool :=
  docsMtimes.any (fun mt => decide ((now : Int) - 1800 < (mt : Int)))

/-- `check_recent_compass_tokens`: a recent ledger `last_update`, or any
tracked agent name with the compass- prefix (regardless of age). A
non-dict `by_agent` raises `AttributeError` out of the function — its
`except` clause only covers `json.JSONDecodeError` and
`FileNotFoundError`. -/
def check_recent_compass_tokens
    (tokenFile : Option (Option (List (String × JVal)))) (now : Nat) :
    Except String Bool :=
  match tokenFile with
  | none => .ok false
  | some none => .ok false
  | some (some d) =>
      if jvRecentExt (dlookupD d "last_update" (.scalar (.jstr ""))) now then .ok true
      else
        match dlookupD d "by_agent" (.obj []) with
        | .obj entries => .ok (entries.any (fun p => strStartsWith p.1 "compass-"))
        | .scalar _ => .error "AttributeError"

/-- `compass_context_active`: the ordered, short-circuiting signal list. -/
def compass_context_active (fs : ActivityFS) (now : Nat) : Except String Bool :=
  if fs.statusFileExists then .ok true
  else if check_compass_session_active fs.sessionFile now then .ok true
  else if checkLogActivity fs.logFile now then .ok true
  else if checkRecentDocs fs.docsMtimes now then .ok true
  else check_recent_compass_tokens fs.tokenFile now

end Compass

namespace Compass

/-- A timestamp string is older than window `w` at time `now`: every
successful parse lies at least `w` seconds in the past. -/
def tsOldStr (s : String) (w : Nat) (now : Nat) : Prop :=
  ∀ ts, parseTs s = some ts → ts + w ≤ now

/-- A loosely-typed stored timestamp is older than window `w`. -/
def tsOldJV (v : JVal) (w : Nat) (now : Nat) : Prop :=
  ∀ s ts, v = .scalar (.jstr s) → parseTs s = some ts → ts + w ≤ now

theorem is_session_timestamp_valid_false {s : String} {w now : Nat}
    (h : tsOldStr s w now) : is_session_timestamp_valid s w now = false := by
  unfold is_session_timestamp_valid
  cases hp : parseTs s with
  | none => rfl
  | some ts =>
      have := h ts hp
      simp only [decide_eq_false_iff_not, not_lt]
      omega

theorem is_recent_timestamp_extended_false {s : String} {now : Nat}
    (h : tsOldStr s 1800 now) : is_recent_timestamp_extended s now = false := by
  unfold is_recent_timestamp_extended
  cases hp : parseTs s with
  | none => rfl
  | some ts =>
      have := h ts hp
      simp only [decide_eq_false_iff_not, not_lt]
      omega

theorem jvTsValid_false {v : JVal} {w now : Nat} (h : tsOldJV v w now) :
    jvTsValid v w now = false := by
  cases v with
  | scalar a =>
      cases a with
      | jstr s =>
          exact is_session_timestamp_valid_false (fun ts hp => h s ts rfl hp)
      | jint n => rfl
      | jbool b => rfl
      | jnull => rfl
  | obj e => rfl

theorem jvRecentExt_false {v : JVal} {now : Nat} (h : tsOldJV v 1800 now) :
    jvRecentExt v now = false := by
  cases v with
  | scalar a =>
      cases a with
      | jstr s =>
          exact is_recent_timestamp_extended_false (fun ts hp => h s ts rfl hp)
      | jint n => rfl
      | jbool b => rfl
      | jnull => rfl
  | obj e => rfl

/-- A ledger whose `last_update` is long stale but whose by_agent map
still carries a compass- prefixed agent name; nothing else on disk. -/
def fsC9 : ActivityFS :=
  { statusFileExists := false,
    sessionFile := none,
    logFile := none,
    docsMtimes := [],
    tokenFile := some (some [("last_update", .scalar (.jstr "0")),
                             ("by_agent", .obj [("compass-captain", .jint 5)])]) }

end Compass

/-- Claim C9 counterexample: with no status-marker file, no session
marker, no journal, no recent documentation, and a ledger `last_update`
far older than its 30-minute window (stamped 0, read at 1000000),
`compass_context_active` still returns true, because a compass- prefixed
agent name in by_agent keeps the sensor active regardless of every
timestamp — refuting the claim that staleness of all timestamp sources
forces false. -/
theorem Compass.C9_counterexample :
    is_recent_timestamp_extended "0" 1000000 = false
    ∧ compass_context_active fsC9 1000000 = .ok true := by
  decide

/-- Claim C9 (amended): `isActive()` returns false once no status-marker
file exists, every contributing timestamp source (session marker
session_start/last_activity, journal entry timestamps, documentation
mtimes, ledger last_update) is older than its window (2h or 30min), AND
no tracked agent name in the ledger carries the compass- prefix (such a
name keeps the sensor active regardless of age); and it returns true
whenever the session marker's `last_activity` is fresh, in particular
immediately after a tracked invocation is recorded. -/
theorem Compass.C9_amended :
    (∀ (fs : ActivityFS) (now : Nat),
      fs.statusFileExists = false →
      (∀ d, fs.sessionFile = some (some d) →
        tsOldJV (dlookupD d "session_start" (.scalar (.jstr ""))) 7200 now
        ∧ tsOldJV (dlookupD d "last_activity" (.scalar (.jstr ""))) 1800 now) →
      (∀ lines e, fs.logFile = some lines → some e ∈ lines →
        tsOldStr e.timestamp 1800 now) →
      (∀ mt ∈ fs.docsMtimes, mt + 1800 ≤ now) →
      (∀ d, fs.tokenFile = some (some d) →
        tsOldJV (dlookupD d "last_update" (.scalar (.jstr ""))) 1800 now
        ∧ ∃ entries, dlookupD d "by_agent" (.obj []) = .obj entries
            ∧ ∀ p ∈ entries, strStartsWith p.1 "compass-" = false) →
      compass_context_active fs now = .ok false)
    ∧ (∀ (fs : ActivityFS) (now : Nat) (d : List (String × JVal))
        (s : String) (ts : Nat),
      fs.sessionFile = some (some d) →
      dlookupD d "last_activity" (.scalar (.jstr "")) = .scalar (.jstr s) →
      parseTs s = some ts →
      (now : Int) - (ts : Int) < 1800 →
      compass_context_active fs now = .ok true) := by
  constructor
  · intro fs now h1 h2 h3 h4 h5
    have hs : check_compass_session_active fs.sessionFile now = false := by
      cases hsf : fs.sessionFile with
      | none => rfl
      | some o =>
          cases o with
          | none => rfl
          | some d =>
              obtain ⟨ha, hb⟩ := h2 d hsf
              simp [check_compass_session_active, jvTsValid_false ha,
                jvTsValid_false hb]
    have hl : checkLogActivity fs.logFile now = false := by
      cases hlf : fs.logFile with
      | none => rfl
      | some lines =>
          unfold checkLogActivity
          rw [List.any_eq_false]
          intro l hl
          have hmem : l ∈ lines := List.drop_subset _ _ hl
          cases l with
          | none => simp [logLineActive]
          | some e =>
              have hts := h3 lines e hlf hmem
              have : logLineActive (some e) now = false := by
                simp [logLineActive, is_recent_timestamp_extended_false hts]
              simp [this]
    have hd : checkRecentDocs fs.docsMtimes now = false := by
      unfold checkRecentDocs
      rw [List.any_eq_false]
      intro mt hmt
      have := h4 mt hmt
      simp only [decide_eq_true_eq, not_lt]
      omega
    have htok : check_recent_compass_tokens fs.tokenFile now = .ok false := by
      cases htf : fs.tokenFile with
      | none => rfl
      | some o =>
          cases o with
          | none => rfl
          | some d =>
              obtain ⟨hlu, entries, hba, hags⟩ := h5 d htf
              have h6 := jvRecentExt_false hlu
              have hany : entries.any (fun p => strStartsWith p.1 "compass-") = false := by
                rw [List.any_eq_false]
                intro p hp
                simpa using hags p hp
              simp [check_recent_compass_tokens, h6, hba, hany]
    unfold compass_context_active
    rw [h1, hs, hl, hd]
    simpa using htok
  · intro fs now d s ts hsf hla hp hlt
    have hsess : check_compass_session_active fs.sessionFile now = true := by
      simp [check_compass_session_active, hsf, hla, jvTsValid,
        is_session_timestamp_valid, hp, hlt]
    unfold compass_context_active
    by_cases hst : fs.statusFileExists
    · simp [hst]
    · simp [hst, hsess]

namespace Compass

/-- All-quiet on-disk state: only a ledger tracking one non-compass agent
with no parseable `last_update`. -/
def fsC9w : ActivityFS :=
  { statusFileExists := false,
    sessionFile := none,
    logFile := none,
    docsMtimes := [],
    tokenFile := some (some [("by_agent", .obj [("agent-x", .jint 1)])]) }

/-- A fresh session marker recorded at time 90. -/
def fsC9w2 : ActivityFS :=
  { statusFileExists := false,
    sessionFile := some (some [("last_activity", .scalar (.jstr "90"))]),
    logFile := none,
    docsMtimes := [],
    tokenFile := none }

end Compass

/-- Claim C9 amended, witness: the quiet state reads inactive, the fresh
session marker reads active. -/
theorem Compass.C9_amended_witness :
    compass_context_active fsC9w 10000 = .ok false
    ∧ compass_context_active fsC9w2 100 = .ok true := by
  constructor
  · refine Compass.C9_amended.1 fsC9w 10000 rfl ?_ ?_ ?_ ?_
    · intro d hd
      cases hd
    · intro lines e hl hm
      cases hl
    · intro mt hmt
      cases hmt
    · intro d hd
      cases hd
      constructor
      · intro s ts heq hp
        cases heq
        simp [parseTs] at hp
      · exact ⟨[("agent-x", .jint 1)], rfl, by decide⟩
  · exact Compass.C9_amended.2 fsC9w2 100 [("last_activity", .scalar (.jstr "90"))]
      "90" 90 rfl rfl (by decide) (by decide)
